import Mathlib

/-
Shallow embedding of tenacity.py (a generic retry controller) in Lean 4.

Conventions of the embedding:
* Python exceptions are modelled as values of a type parameter ε; the wrapped
  operation is a function from the attempt number to an outcome (normal return
  value or raised exception), which captures any per-invocation behaviour of
  the Python callable.
* Machine integers are Int (Python ints are arbitrary precision, so no
  modular reduction is needed); the float produced by random.random() and the
  sleep durations (int + float in Python) are modelled as ℚ.
* time.time() readings are supplied as an input trace: elapsed n is the value
  of delay_since_first_attempt_ms computed in the loop iteration whose
  attempt_number is n.  random.random() draws are supplied likewise.
* The while True loop of Retrying.call is modelled with explicit fuel; fuel
  exhaustion is the CallResult.diverged outcome (the Python loop simply has
  not returned yet at that point).
* The before_attempts / after_attempts hooks only receive the attempt number
  and have no return value consumed, so they do not affect the pure state and
  are omitted from the embedding.
-/

namespace Tenacity

/-- Outcome of one invocation of the wrapped function: a normal return value
(res) or a raised exception (exc).  In the Python source this pair of cases is
encoded by Attempt.value together with the has_exception flag. -/
inductive AttemptValue (α ε : Type) where
  | res : α → AttemptValue α ε
  | exc : ε → AttemptValue α ε
deriving DecidableEq

/-- Attempt: encapsulates a call to a target function (tenacity.py lines
269-279).  Python stores has_exception as a third constructor argument that is
always passed consistently with the payload (lines 233 and 236); here it is
derived from the payload, see Attempt.has_exception. -/
structure Attempt (α ε : Type) where
  value : AttemptValue α ε
  attempt_number : Nat
deriving DecidableEq

/-- The has_exception flag of an Attempt. -/
def Attempt.has_exception {α ε : Type} (a : Attempt α ε) : Bool :=
  match a.value with
  | .exc _ => true
  | .res _ => false

/-- Observable result of Retrying.call: a normal return, a re-raised original
exception, a raised RetryError wrapping the last Attempt, or divergence (the
fuel bound was reached before the loop returned). -/
inductive CallResult (α ε : Type) where
  | returned : α → CallResult α ε
  | raised : ε → CallResult α ε
  | retryError : Attempt α ε → CallResult α ε
  | diverged : CallResult α ε
deriving DecidableEq

/-- Attempt.get (tenacity.py lines 281-293): return the return value of this
Attempt or raise; with wrap_exception true an exceptional Attempt is wrapped
inside a RetryError before being raised, otherwise the original captured
exception is re-raised (six.reraise) unchanged. -/
def Attempt.get {α ε : Type} (a : Attempt α ε) (wrap_exception : Bool) : CallResult α ε :=
  match a.value with
  | .exc e => if wrap_exception then .retryError a else .raised e
  | .res v => .returned v

/-- MAX_WAIT (tenacity.py lines 24-28): Python 3 has no sys.maxint, so the
AttributeError branch sets 1073741823. -/
def MAX_WAIT : Int := 1073741823

/-- stop_after_attempt (tenacity.py lines 67-74): stops when the previous
attempt number is at least max_attempt_number. -/
structure stop_after_attempt where
  max_attempt_number : Nat

def stop_after_attempt.call (s : stop_after_attempt)
    (previous_attempt_number : Nat) (delay_since_first_attempt_ms : Int) : Bool :=
  decide (previous_attempt_number ≥ s.max_attempt_number)

/-- stop_after_delay (tenacity.py lines 77-84): stops when the time from the
first attempt is at least max_delay. -/
structure stop_after_delay where
  max_delay : Int

def stop_after_delay.call (s : stop_after_delay)
    (previous_attempt_number : Nat) (delay_since_first_attempt_ms : Int) : Bool :=
  decide (delay_since_first_attempt_ms ≥ s.max_delay)

/-- wait_fixed (tenacity.py lines 87-94): waits a fixed amount of time between
each retry; the constructor argument is returned verbatim. -/
structure wait_fixed where
  wait_fixed : Int

def wait_fixed.call (s : Tenacity.wait_fixed)
    (previous_attempt_number : Nat) (delay_since_first_attempt_ms : Int) : Int :=
  s.wait_fixed

/-- wait_none (tenacity.py lines 97-101): the wait_fixed subclass constructed
with wait 0. -/
def wait_none : wait_fixed := ⟨0⟩

/-- random.randint a b: a uniformly drawn integer in the inclusive range
a..b, modelled by reducing an abstract draw r from the random source. -/
def randint (a b : Int) (r : Nat) : Int :=
  a + ((r % (b - a + 1).toNat : Nat) : Int)

/-- wait_random (tenacity.py lines 104-112): waits random.randint(min, max)
between retries; r is the draw from the random source. -/
structure wait_random where
  wait_random_min : Int
  wait_random_max : Int

def wait_random.call (s : wait_random) (r : Nat)
    (previous_attempt_number : Nat) (delay_since_first_attempt_ms : Int) : Int :=
  randint s.wait_random_min s.wait_random_max r

/-- wait_incrementing (tenacity.py lines 115-135): start + increment *
(previous_attempt_number - 1), first clamped above by max, then clamped below
by 0. -/
structure wait_incrementing where
  start : Int
  increment : Int
  max : Int

def wait_incrementing.call (s : wait_incrementing)
    (previous_attempt_number : Nat) (delay_since_first_attempt_ms : Int) : Int :=
  let result := s.start + s.increment * ((previous_attempt_number : Int) - 1)
  let result := if result > s.max then s.max else result
  if result < 0 then 0 else result

/-- wait_exponential (tenacity.py lines 138-159): multiplier * EXP_BASE ^
previous_attempt_number, first clamped above by max, then clamped below by 0. -/
structure wait_exponential where
  multiplier : Int
  max : Int

def wait_exponential.EXP_BASE : Int := 2

def wait_exponential.call (s : wait_exponential)
    (previous_attempt_number : Nat) (delay_since_first_attempt_ms : Int) : Int :=
  let exp := wait_exponential.EXP_BASE ^ previous_attempt_number
  let result := s.multiplier * exp
  let result := if result > s.max then s.max else result
  if result < 0 then 0 else result

/-- _never_reject (tenacity.py lines 162-164): never rejects any result. -/
def _never_reject {γ : Type} (result : γ) : Bool := false

/-- _always_reject (tenacity.py lines 167-169): always rejects any result. -/
def _always_reject {γ : Type} (result : γ) : Bool := true

/-- _MaybeReject (tenacity.py lines 172-188): rejection strategy holding the
two optional predicates (None is Option.none). -/
structure _MaybeReject (α ε : Type) where
  retry_on_exception : Option (ε → Bool)
  retry_on_result : Option (α → Bool)

/-- _MaybeReject.__call__ (tenacity.py lines 180-188): reject starts False;
if the attempt has an exception, the exception predicate (when present) is
OR-ed in on the captured exception attempt.value[1]; otherwise the result
predicate (when present) is OR-ed in on attempt.value.  Branching on the
payload is the faithful reading: has_exception is true exactly on exc
payloads for every Attempt the controller builds. -/
def _MaybeReject.call {α ε : Type} (m : _MaybeReject α ε) (attempt : Attempt α ε) : Bool :=
  match attempt.value with
  | .exc e =>
    match m.retry_on_exception with
    | some p => false || p e
    | none => false
  | .res v =>
    match m.retry_on_result with
    | some p => false || p v
    | none => false

/-- Retrying controller state (tenacity.py lines 191-210): the fields stored
by __init__.  Python's None becomes Option.none; the wait strategy is an
Option because `if self.wait:` is False only for wait=None (strategy objects
are always truthy); _wait_jitter_max is a ℚ because it multiplies a float. -/
structure Retrying (α ε : Type) where
  stop : Option (Nat → Int → Bool)
  wait : Option (Nat → Int → Int)
  should_reject : _MaybeReject α ε
  _wrap_exception : Bool
  _wait_jitter_max : Option ℚ

/-- Retrying._select_reject_strategy (tenacity.py lines 212-223): a None
exception predicate becomes _always_reject and a None result predicate
becomes _never_reject.  (The Python convenience branch turning a tuple of
exception types into an isinstance predicate is the caller passing a
predicate already in this embedding.) -/
def Retrying._select_reject_strategy {α ε : Type}
    (retry_on_exception : Option (ε → Bool)) (retry_on_result : Option (α → Bool)) :
    _MaybeReject α ε :=
  let roe := match retry_on_exception with
    | none => _always_reject
    | some p => p
  let ror := match retry_on_result with
    | none => _never_reject
    | some p => p
  ⟨some roe, some ror⟩

/-- Retrying.__init__ (tenacity.py lines 194-210) with the arguments in
source order: stop, wait, retry_on_exception, retry_on_result,
wrap_exception, wait_jitter_max (the two observer hooks are omitted, see the
header comment). -/
def Retrying.make {α ε : Type}
    (stop : Option (Nat → Int → Bool)) (wait : Option (Nat → Int → Int))
    (retry_on_exception : Option (ε → Bool)) (retry_on_result : Option (α → Bool))
    (wrap_exception : Bool) (wait_jitter_max : Option ℚ) : Retrying α ε :=
  ⟨stop, wait, Retrying._select_reject_strategy retry_on_exception retry_on_result,
    wrap_exception, wait_jitter_max⟩

/-- The Python truthiness test `if self.stop and self.stop(n, d)` of
tenacity.py line 247: False when stop is None, else the strategy's verdict. -/
def stopTruthy (stop : Option (Nat → Int → Bool)) (n : Nat) (d : Int) : Bool :=
  match stop with
  | some s => s n d
  | none => false

/-- The sleep computation of tenacity.py lines 255-263: sleep is the wait
strategy's output (0 when wait is None); when _wait_jitter_max is truthy
(neither None nor 0), jitter = random.random() * _wait_jitter_max is computed
from the draw rnd and max(0, jitter) is added to sleep. -/
def computeSleep (wait : Option (Nat → Int → Int)) (wjm : Option ℚ)
    (attempt_number : Nat) (delay_since_first_attempt_ms : Int) (rnd : ℚ) : ℚ :=
  let sleep : ℚ := match wait with
    | some w => ((w attempt_number delay_since_first_attempt_ms : Int) : ℚ)
    | none => 0
  match wjm with
  | some jm => if jm ≠ 0 then sleep + max 0 (rnd * jm) else sleep
  | none => sleep

/-- Observable trace of one Retrying.call run: the final result, the number
of invocations of the wrapped function performed, and the successive
durations passed to time.sleep. -/
structure CallTrace (α ε : Type) where
  result : CallResult α ε
  invocations : Nat
  sleeps : List ℚ
deriving DecidableEq

/-- The while True loop of Retrying.call (tenacity.py lines 225-266),
starting at a given attempt_number with the given fuel.  Per iteration: build
the Attempt from fn attempt_number; if should_reject is false return
attempt.get(_wrap_exception); otherwise read the elapsed time, and if the
stop strategy (when present) fires, re-raise the original exception when not
wrapping and the attempt holds one, else raise RetryError(attempt); otherwise
sleep for the computed duration and continue with attempt_number + 1. -/
def Retrying.callFrom {α ε : Type} (r : Retrying α ε) (fn : Nat → AttemptValue α ε)
    (elapsed : Nat → Int) (rnd : Nat → ℚ) : Nat → Nat → CallTrace α ε
  | _, 0 => ⟨.diverged, 0, []⟩
  | attempt_number, fuel + 1 =>
    let attempt : Attempt α ε := ⟨fn attempt_number, attempt_number⟩
    if !(r.should_reject.call attempt) then
      ⟨attempt.get r._wrap_exception, 1, []⟩
    else
      let delay_since_first_attempt_ms := elapsed attempt_number
      if stopTruthy r.stop attempt_number delay_since_first_attempt_ms then
        if !r._wrap_exception && attempt.has_exception then
          ⟨attempt.get false, 1, []⟩
        else
          ⟨.retryError attempt, 1, []⟩
      else
        let sleep := computeSleep r.wait r._wait_jitter_max attempt_number
          delay_since_first_attempt_ms (rnd attempt_number)
        let rest := Retrying.callFrom r fn elapsed rnd (attempt_number + 1) fuel
        ⟨rest.result, rest.invocations + 1, sleep :: rest.sleeps⟩

/-- Retrying.call (tenacity.py lines 225-266): the loop entered with
attempt_number = 1. -/
def Retrying.call {α ε : Type} (r : Retrying α ε) (fn : Nat → AttemptValue α ε)
    (elapsed : Nat → Int) (rnd : Nat → ℚ) (fuel : Nat) : CallTrace α ε :=
  Retrying.callFrom r fn elapsed rnd 1 fuel

/-- First attempt number at or after start (within fuel iterations) at which
the stop strategy fires on that attempt's elapsed-time reading. -/
def firstStop (s : Nat → Int → Bool) (elapsed : Nat → Int) : Nat → Nat → Option Nat
  | _, 0 => none
  | start, fuel + 1 =>
    if s start (elapsed start) then some start
    else firstStop s elapsed (start + 1) fuel

/-- Unfolding lemma: the loop with zero fuel. -/
theorem Retrying.callFrom_zero {α ε : Type} (r : Retrying α ε)
    (fn : Nat → AttemptValue α ε) (elapsed : Nat → Int) (rnd : Nat → ℚ) (n : Nat) :
    Retrying.callFrom r fn elapsed rnd n 0 = ⟨.diverged, 0, []⟩ := rfl

/-- Unfolding lemma: one iteration of the loop. -/
theorem Retrying.callFrom_succ {α ε : Type} (r : Retrying α ε)
    (fn : Nat → AttemptValue α ε) (elapsed : Nat → Int) (rnd : Nat → ℚ)
    (attempt_number fuel : Nat) :
    Retrying.callFrom r fn elapsed rnd attempt_number (fuel + 1) =
      (if !(r.should_reject.call ⟨fn attempt_number, attempt_number⟩) then
        ⟨Attempt.get ⟨fn attempt_number, attempt_number⟩ r._wrap_exception, 1, []⟩
      else if stopTruthy r.stop attempt_number (elapsed attempt_number) then
        if !r._wrap_exception && Attempt.has_exception ⟨fn attempt_number, attempt_number⟩ then
          ⟨Attempt.get ⟨fn attempt_number, attempt_number⟩ false, 1, []⟩
        else
          ⟨.retryError ⟨fn attempt_number, attempt_number⟩, 1, []⟩
      else
        ⟨(Retrying.callFrom r fn elapsed rnd (attempt_number + 1) fuel).result,
         (Retrying.callFrom r fn elapsed rnd (attempt_number + 1) fuel).invocations + 1,
         computeSleep r.wait r._wait_jitter_max attempt_number (elapsed attempt_number)
             (rnd attempt_number) ::
           (Retrying.callFrom r fn elapsed rnd (attempt_number + 1) fuel).sleeps⟩) := rfl

/-- Claim C5, counterexample: wait_fixed constructed with duration -5 returns
-5 (negative, unclamped) at attempt 1 with elapsed time 0, so not every wait
strategy clamps negative results to 0. -/
theorem C5_wait_nonneg_cex :
    wait_fixed.call ⟨-5⟩ 1 0 = -5 ∧ ¬ (0 ≤ wait_fixed.call ⟨-5⟩ 1 0) := by
  decide

/-- Claim C5 (amended): wait_none always returns 0, and wait_incrementing and
wait_exponential clamp their results to be non-negative for all constructor
parameters and inputs; but wait_fixed returns its configured duration
verbatim and wait_random returns a value at least its configured minimum, so
these two are non-negative only when the parameters themselves are
(duration at least 0, minimum at least 0). -/
theorem C5_wait_nonneg (w mn mx s i m mult : Int) (r k : Nat) (d : Int)
    (hw : 0 ≤ w) (hmn : 0 ≤ mn) :
    wait_fixed.call wait_none k d = 0 ∧
    0 ≤ wait_incrementing.call ⟨s, i, m⟩ k d ∧
    0 ≤ wait_exponential.call ⟨mult, m⟩ k d ∧
    0 ≤ wait_fixed.call ⟨w⟩ k d ∧
    0 ≤ wait_random.call ⟨mn, mx⟩ r k d := by
  refine ⟨rfl, ?_, ?_, hw, ?_⟩
  · unfold wait_incrementing.call
    dsimp only
    generalize s + i * ((k : Int) - 1) = t
    split_ifs <;> omega
  · unfold wait_exponential.call
    dsimp only
    generalize mult * wait_exponential.EXP_BASE ^ k = t
    split_ifs <;> omega
  · unfold wait_random.call randint
    dsimp only
    omega

/-- Witness for C5_wait_nonneg at concrete inputs. -/
theorem C5_wait_nonneg_witness :
    (0 ≤ (7 : Int)) ∧ (0 ≤ (2 : Int)) ∧
    (wait_fixed.call wait_none 1 0 = 0 ∧
     0 ≤ wait_incrementing.call ⟨-3, -4, 50⟩ 1 0 ∧
     0 ≤ wait_exponential.call ⟨-2, 50⟩ 1 0 ∧
     0 ≤ wait_fixed.call ⟨7⟩ 1 0 ∧
     0 ≤ wait_random.call ⟨2, 5⟩ 4 1 0) :=
  ⟨by decide, by decide,
    C5_wait_nonneg 7 2 5 (-3) (-4) 50 (-2) 4 1 0 (by decide) (by decide)⟩

/-- Claim C6, counterexample: with start 0, increment 0, max -5, at attempt 1
the code returns 0 (it clamps to max first and then to 0), while the claimed
formula min (max 0 (s + i * (k - 1))) m gives -5. -/
theorem C6_incrementing_cex :
    ¬ (wait_incrementing.call ⟨0, 0, -5⟩ 1 0 =
        min (max 0 ((0 : Int) + 0 * ((1 : Int) - 1))) (-5)) := by
  decide

/-- Claim C6 (amended): for all integers s, i, m, every attempt number k at
least 1 and every elapsed time, wait_incrementing start s increment i max m
returns exactly max 0 (min (s + i * (k - 1)) m): the result is clamped above
by m first and below by 0 second, which agrees with the claimed
min (max 0 ...) m whenever m is non-negative but yields 0 (not m) when m is
negative. -/
theorem C6_incrementing_formula (s i m : Int) (k : Nat) (d : Int) (hk : 1 ≤ k) :
    wait_incrementing.call ⟨s, i, m⟩ k d =
      max 0 (min (s + i * ((k : Int) - 1)) m) := by
  unfold wait_incrementing.call
  dsimp only
  generalize s + i * ((k : Int) - 1) = t
  split_ifs <;> omega

/-- Witness for C6_incrementing_formula at concrete inputs. -/
theorem C6_incrementing_witness :
    (1 ≤ 4) ∧
    wait_incrementing.call ⟨2, 3, 100⟩ 4 9 =
      max 0 (min (2 + 3 * ((4 : Int) - 1)) 100) :=
  ⟨by decide, C6_incrementing_formula 2 3 100 4 9 (by decide)⟩

/-- Claim C7, counterexample: with multiplier -1 and max 1000, at attempt 1
the code returns 0 (the negative product is clamped to 0), while the claimed
formula min (mult * 2 ^ k) m gives -2. -/
theorem C7_exponential_cex :
    ¬ (wait_exponential.call ⟨-1, 1000⟩ 1 0 = min ((-1) * 2 ^ (1 : Nat)) 1000) := by
  decide

/-- Claim C7 (amended): for all integers mult, m, every attempt number k at
least 1 and every elapsed time, wait_exponential multiplier mult max m
returns exactly max 0 (min (mult * 2 ^ k) m).  The product is computed over
unbounded integers and then clamped, so for large k the result saturates at m
(when m is non-negative) instead of overflowing, wrapping or raising; the 0
clamp additionally applies for negative mult or negative m, where the claimed
formula min (mult * 2 ^ k) m is negative. -/
theorem C7_exponential_formula (mult m : Int) (k : Nat) (d : Int) (hk : 1 ≤ k) :
    wait_exponential.call ⟨mult, m⟩ k d = max 0 (min (mult * 2 ^ k) m) := by
  unfold wait_exponential.call wait_exponential.EXP_BASE
  dsimp only
  generalize mult * 2 ^ k = t
  split_ifs <;> omega

/-- Witness for C7_exponential_formula at concrete inputs (a saturating case:
1 * 2 ^ 20 is far above max 300, and the result is exactly 300). -/
theorem C7_exponential_witness :
    (1 ≤ 20) ∧
    wait_exponential.call ⟨1, 300⟩ 20 0 = max 0 (min (1 * 2 ^ (20 : Nat)) 300) :=
  ⟨by decide, C7_exponential_formula 1 300 20 0 (by decide)⟩

/-- Claim C8: the reject strategy built from retry_on_exception None and
retry_on_result None returns false on every Attempt holding a Success and
true on every Attempt holding a Failure. -/
theorem C8_default_reject_strategy {α ε : Type} (v : α) (e : ε) (n m : Nat) :
    (@Retrying._select_reject_strategy α ε none none).call ⟨.res v, n⟩ = false ∧
    (@Retrying._select_reject_strategy α ε none none).call ⟨.exc e, m⟩ = true := by
  constructor <;> rfl

/-- Claim C9: the composed reject strategy evaluates exactly one predicate
per Attempt: on a Failure the verdict is independent of retry_on_result and
equals retry_on_exception applied to the captured error; on a Success the
verdict is independent of retry_on_exception and equals retry_on_result
applied to the value. -/
theorem C9_exactly_one_predicate {α ε : Type}
    (roe roe' : Option (ε → Bool)) (ror ror' : Option (α → Bool))
    (pe : ε → Bool) (pr : α → Bool) (e : ε) (v : α) (n : Nat) :
    _MaybeReject.call ⟨roe, ror⟩ ⟨.exc e, n⟩ = _MaybeReject.call ⟨roe, ror'⟩ ⟨.exc e, n⟩ ∧
    _MaybeReject.call ⟨roe, ror⟩ ⟨.res v, n⟩ = _MaybeReject.call ⟨roe', ror⟩ ⟨.res v, n⟩ ∧
    _MaybeReject.call ⟨some pe, ror⟩ ⟨.exc e, n⟩ = pe e ∧
    _MaybeReject.call ⟨roe, some pr⟩ ⟨.res v, n⟩ = pr v := by
  refine ⟨rfl, rfl, ?_, ?_⟩ <;> simp [_MaybeReject.call]

/-- Claim C1: an operation that raises on its first two invocations and
returns V on the third, run under Retrying.call with stop after attempt 5,
wait_none and every other configuration at its default (no reject
predicates, wrap_exception false, no jitter), returns V to the caller with
exactly 3 invocations (and two zero sleeps in between). -/
theorem C1_round_trip {α ε : Type} (V : α) (fn : Nat → AttemptValue α ε) (e1 e2 : ε)
    (h1 : fn 1 = .exc e1) (h2 : fn 2 = .exc e2) (h3 : fn 3 = .res V)
    (elapsed : Nat → Int) (rnd : Nat → ℚ) (fuel : Nat) (hf : 3 ≤ fuel) :
    Retrying.call
      (Retrying.make (some (stop_after_attempt.call ⟨5⟩))
        (some (wait_fixed.call wait_none)) none none false none)
      fn elapsed rnd fuel = ⟨.returned V, 3, [0, 0]⟩ := by
  obtain ⟨k, rfl⟩ : ∃ k, fuel = k + 3 := ⟨fuel - 3, by omega⟩
  show Retrying.callFrom _ fn elapsed rnd 1 (k + 3) = _
  rw [show k + 3 = (k + 2) + 1 from rfl, Retrying.callFrom_succ,
    show k + 2 = (k + 1) + 1 from rfl, Retrying.callFrom_succ,
    Retrying.callFrom_succ]
  simp [Retrying.make, Retrying._select_reject_strategy, _MaybeReject.call,
    _always_reject, _never_reject, h1, h2, h3, Attempt.get, stopTruthy,
    stop_after_attempt.call, computeSleep, wait_fixed.call, wait_none]

/-- Witness for C1_round_trip at concrete inputs. -/
theorem C1_round_trip_witness :
    ((fun n => if n = 1 then AttemptValue.exc 7 else
        if n = 2 then AttemptValue.exc 8 else AttemptValue.res 42 : Nat → AttemptValue Int Int) 1
      = AttemptValue.exc 7) ∧
    Retrying.call
      (Retrying.make (some (stop_after_attempt.call ⟨5⟩))
        (some (wait_fixed.call wait_none)) none none false none)
      (fun n => if n = 1 then AttemptValue.exc 7 else
        if n = 2 then AttemptValue.exc 8 else AttemptValue.res (42 : Int))
      (fun _ => 0) (fun _ => 0) 3 = ⟨.returned 42, 3, [0, 0]⟩ :=
  ⟨by decide,
    C1_round_trip 42 _ 7 8 (by decide) (by decide) (by decide)
      (fun _ => 0) (fun _ => 0) 3 (by decide)⟩

/-- Claim C2: an operation that always raises ErrorX, run under Retrying.call
with stop after attempt 3 and wrap_exception false (all else default),
performs exactly 3 invocations and then re-raises the original ErrorX itself
rather than a wrapping RetryError. -/
theorem C2_exhaustion_unwrapped {α ε : Type} (ErrorX : ε)
    (elapsed : Nat → Int) (rnd : Nat → ℚ) (fuel : Nat) (hf : 3 ≤ fuel) :
    Retrying.call
      (Retrying.make (some (stop_after_attempt.call ⟨3⟩))
        (some (wait_fixed.call wait_none)) none none false none)
      (fun _ => AttemptValue.exc ErrorX) elapsed rnd fuel
      = ⟨CallResult.raised (α := α) ErrorX, 3, [0, 0]⟩ := by
  obtain ⟨k, rfl⟩ : ∃ k, fuel = k + 3 := ⟨fuel - 3, by omega⟩
  show Retrying.callFrom _ _ elapsed rnd 1 (k + 3) = _
  rw [show k + 3 = (k + 2) + 1 from rfl, Retrying.callFrom_succ,
    show k + 2 = (k + 1) + 1 from rfl, Retrying.callFrom_succ,
    Retrying.callFrom_succ]
  simp [Retrying.make, Retrying._select_reject_strategy, _MaybeReject.call,
    _always_reject, _never_reject, Attempt.get, Attempt.has_exception, stopTruthy,
    stop_after_attempt.call, computeSleep, wait_fixed.call, wait_none]

/-- Witness for C2_exhaustion_unwrapped at concrete inputs. -/
theorem C2_exhaustion_unwrapped_witness :
    (3 ≤ 3) ∧
    Retrying.call
      (Retrying.make (some (stop_after_attempt.call ⟨3⟩))
        (some (wait_fixed.call wait_none)) none none false none)
      (fun _ => AttemptValue.exc (7 : Int)) (fun _ => 0) (fun _ => 0) 3
      = ⟨CallResult.raised (α := Int) 7, 3, [0, 0]⟩ :=
  ⟨by decide, C2_exhaustion_unwrapped 7 (fun _ => 0) (fun _ => 0) 3 (by decide)⟩

/-- Claim C4, counterexample: a controller whose reject strategy accepts
Failures (retry_on_exception is the constant-false predicate) but with
wrap_exception true does NOT re-raise the original error 7 on an accepted
Failure; it raises RetryError wrapping the Attempt, because the accept path
calls attempt.get(self._wrap_exception).  So the accepted-Failure outcome is
not independent of the wrap_exception configuration. -/
theorem C4_accepted_outcome_cex :
    Retrying.call (α := Int) (ε := Int)
      (Retrying.make none (some (wait_fixed.call wait_none))
        (some (fun _ => false)) none true none)
      (fun _ => AttemptValue.exc 7) (fun _ => 0) (fun _ => 0) 1
      = ⟨.retryError ⟨.exc 7, 1⟩, 1, []⟩ ∧
    CallResult.retryError (α := Int) (ε := Int) ⟨.exc 7, 1⟩ ≠ .raised 7 := by
  constructor <;> decide

/-- Claim C4 (amended): for every Attempt on which the reject strategy
returns false, the loop immediately terminates with one further invocation
and propagates that Attempt's outcome via attempt.get(_wrap_exception): a
Success value is returned, and an accepted Failure re-raises the original
captured error unchanged when wrap_exception is false, but raises RetryError
wrapping the Attempt when wrap_exception is true. -/
theorem C4_accepted_outcome {α ε : Type} (r : Retrying α ε)
    (fn : Nat → AttemptValue α ε) (elapsed : Nat → Int) (rnd : Nat → ℚ)
    (start fuel : Nat)
    (hrej : r.should_reject.call ⟨fn start, start⟩ = false) :
    Retrying.callFrom r fn elapsed rnd start (fuel + 1) =
      ⟨(match fn start with
        | .res v => CallResult.returned v
        | .exc e => if r._wrap_exception then CallResult.retryError ⟨.exc e, start⟩
                    else CallResult.raised e),
       1, []⟩ := by
  rw [Retrying.callFrom_succ, hrej]
  cases h : fn start <;> simp [Attempt.get, h]

/-- Witness for C4_accepted_outcome: an accepted Failure under wrap_exception
true produces the RetryError wrapping, after exactly one invocation. -/
theorem C4_accepted_outcome_witness :
    ((Retrying.make (α := Int) (ε := Int) none (some (wait_fixed.call wait_none))
        (some (fun _ => false)) none true none).should_reject.call
      ⟨(fun _ => AttemptValue.exc (7 : Int)) 1, 1⟩ = false) ∧
    Retrying.callFrom (α := Int) (ε := Int)
      (Retrying.make none (some (wait_fixed.call wait_none))
        (some (fun _ => false)) none true none)
      (fun _ => AttemptValue.exc 7) (fun _ => 0) (fun _ => 0) 1 (0 + 1)
      = ⟨(match (fun _ => AttemptValue.exc (7 : Int)) 1 with
          | .res v => CallResult.returned v
          | .exc e => if (Retrying.make (α := Int) (ε := Int) none
                (some (wait_fixed.call wait_none))
                (some (fun _ => false)) none true none)._wrap_exception then
              CallResult.retryError ⟨.exc e, 1⟩
            else CallResult.raised e),
         1, []⟩ :=
  ⟨by decide,
    C4_accepted_outcome _ _ (fun _ => 0) (fun _ => 0) 1 0 (by decide)⟩

/-- Helper: computeSleep does not distinguish wait_jitter_max = some 0 from
wait_jitter_max = none, because the Python guard `if self._wait_jitter_max:`
is false on both None and 0. -/
theorem computeSleep_jitter_zero (w : Option (Nat → Int → Int)) (n : Nat)
    (d : Int) (q : ℚ) :
    computeSleep w (some 0) n d q = computeSleep w none n d q := by
  simp [computeSleep]

/-- Helper: whole-loop traces agree between a controller with
wait_jitter_max = some 0 and the same controller with wait_jitter_max =
none. -/
theorem callFrom_jitter_zero {α ε : Type} (r : Retrying α ε)
    (fn : Nat → AttemptValue α ε) (elapsed : Nat → Int) (rnd : Nat → ℚ)
    (start fuel : Nat) :
    Retrying.callFrom ⟨r.stop, r.wait, r.should_reject, r._wrap_exception, some 0⟩
        fn elapsed rnd start fuel =
      Retrying.callFrom ⟨r.stop, r.wait, r.should_reject, r._wrap_exception, none⟩
        fn elapsed rnd start fuel := by
  induction fuel generalizing start with
  | zero => rfl
  | succ fuel ih =>
    rw [Retrying.callFrom_succ, Retrying.callFrom_succ, ih (start + 1),
      computeSleep_jitter_zero]

/-- Claim C10: wait_jitter_max = 0 disables jitter entirely: the computed
sleep equals the base wait strategy's output and coincides with the
wait_jitter_max = None configuration, both pointwise in computeSleep and for
the whole loop trace; and for any jitter bound the computed sleep is never
below the base wait strategy's output (jitter is only ever added). -/
theorem C10_jitter_zero_disabled {α ε : Type} (r : Retrying α ε)
    (w : Option (Nat → Int → Int)) (f : Nat → Int → Int) (jm : ℚ)
    (n : Nat) (d : Int) (q : ℚ) (fn : Nat → AttemptValue α ε)
    (elapsed : Nat → Int) (rnd : Nat → ℚ) (start fuel : Nat) :
    computeSleep w (some 0) n d q = computeSleep w none n d q ∧
    computeSleep (some f) (some 0) n d q = ((f n d : Int) : ℚ) ∧
    ((f n d : Int) : ℚ) ≤ computeSleep (some f) (some jm) n d q ∧
    Retrying.callFrom ⟨r.stop, r.wait, r.should_reject, r._wrap_exception, some 0⟩
        fn elapsed rnd start fuel =
      Retrying.callFrom ⟨r.stop, r.wait, r.should_reject, r._wrap_exception, none⟩
        fn elapsed rnd start fuel := by
  refine ⟨computeSleep_jitter_zero w n d q, by simp [computeSleep], ?_,
    callFrom_jitter_zero r fn elapsed rnd start fuel⟩
  unfold computeSleep
  dsimp only
  split_ifs with h
  · exact le_add_of_nonneg_right (le_max_left 0 (q * jm))
  · exact le_refl _

/-- Claim C3: an operation whose successful results are all rejected by a
configured retry_on_result predicate is retried under exactly the same
stop/wait rules as exception-based rejection: against any stop strategy the
rejected-Success run performs the same number of invocations with the same
sleep sequence as an always-raising run under the default reject strategy,
and when the stop strategy signals give-up (at the first firing attempt
number n) the controller raises RetryError wrapping that rejected-Success
Attempt even though wrap_exception is false. -/
theorem C3_result_rejection {α ε : Type} (s : Nat → Int → Bool) (p : α → Bool)
    (v : Nat → α) (e : Nat → ε) (hv : ∀ j, p (v j) = true)
    (w : Option (Nat → Int → Int)) (jm : Option ℚ)
    (elapsed : Nat → Int) (rnd : Nat → ℚ) (start fuel : Nat) :
    Retrying.callFrom (Retrying.make (α := α) (ε := ε) (some s) w none (some p) false jm)
        (fun j => AttemptValue.res (v j)) elapsed rnd start fuel =
      ⟨(match firstStop s elapsed start fuel with
        | some n => CallResult.retryError ⟨AttemptValue.res (v n), n⟩
        | none => CallResult.diverged),
       (Retrying.callFrom (Retrying.make (α := α) (ε := ε) (some s) w none none false jm)
          (fun j => AttemptValue.exc (e j)) elapsed rnd start fuel).invocations,
       (Retrying.callFrom (Retrying.make (α := α) (ε := ε) (some s) w none none false jm)
          (fun j => AttemptValue.exc (e j)) elapsed rnd start fuel).sleeps⟩ := by
  induction fuel generalizing start with
  | zero => rfl
  | succ fuel ih =>
    rw [Retrying.callFrom_succ, Retrying.callFrom_succ]
    by_cases hs : s start (elapsed start) = true
    · simp [Retrying.make, Retrying._select_reject_strategy, _MaybeReject.call,
        _always_reject, hv start, stopTruthy, hs, Attempt.get, Attempt.has_exception,
        firstStop]
    · rw [ih (start + 1)]
      simp only [Retrying.make, Retrying._select_reject_strategy, _MaybeReject.call,
        _always_reject, hv start, stopTruthy, hs, firstStop, Attempt.has_exception,
        Bool.false_or, Bool.not_true, Bool.false_eq_true, if_false, if_true,
        Bool.or_false]

/-- Witness for C3_result_rejection at concrete inputs: a sentinel result 0
always rejected, stop after attempt 2 — two invocations, one zero sleep, and
a RetryError wrapping the rejected-Success Attempt number 2. -/
theorem C3_result_rejection_witness :
    Retrying.callFrom (Retrying.make (α := Int) (ε := Int)
        (some (stop_after_attempt.call ⟨2⟩)) none none (some (fun _ => true)) false none)
      (fun j => AttemptValue.res ((fun _ => (0 : Int)) j)) (fun _ => 0) (fun _ => 0) 1 5
      = ⟨.retryError ⟨.res 0, 2⟩, 2, [0]⟩ := by
  rw [C3_result_rejection (stop_after_attempt.call ⟨2⟩) (fun _ => true)
    (fun _ => (0 : Int)) (fun _ => (0 : Int)) (fun j => rfl) none none
    (fun _ => 0) (fun _ => 0) 1 5]
  decide

end Tenacity
